import Mathlib

set_option maxRecDepth 100000

/-!
Verification of the CAN transfer-framing codec of this repository.

The serializer is translated from
src/pyuavcan/transport/can/_session/_transfer_sender.py (serialize_transfer).
Bytes are modelled as natural numbers, byte buffers as lists, and the
fallible generator as a value of type Except: the Python generator either
raises (modelled as Except.error) or yields a finite list of frames.

The collaborators that the serializer imports from elsewhere in the
repository (the DLC table, the CRC-16 engine, the refragmenter, the frame
compiler and the reassembler) are not part of the given sources; they are
modelled from the specification, and their behaviour is cross-checked
against the unit-test vectors that are part of the given source file.
-/

/-- Modelled from the spec: the DLC table, the set of legal CAN/CAN-FD frame
data lengths (classic 0 to 8 exact; FD then 12, 16, 20, 24, 32, 48, 64). -/
def dlcLengths : List Nat := [0, 1, 2, 3, 4, 5, 6, 7, 8, 12, 16, 20, 24, 32, 48, 64]

/-- Modelled from the spec: the smallest DLC-legal frame data length that is
at least the requested length.  For lengths beyond the largest table entry no
legal length exists and the spec leaves the behaviour undefined; the model
returns the length unchanged there (that branch is never exercised by any
theorem below). -/
def roundUpDataLength (n : Nat) : Nat :=
  (List.head? (dlcLengths.filter (fun l => n ≤ l))).getD n

/-- The padding fill byte 0x55 (source: _PADDING_PATTERN). -/
def PADDING_BYTE : Nat := 0x55

/-- Length of the transfer CRC in bytes (source: TRANSFER_CRC_LENGTH_BYTES). -/
def TRANSFER_CRC_LENGTH_BYTES : Nat := 2

/-- Modelled from the spec: UAVCANFrame.get_required_padding.  The number of
pad bytes that make the frame data (payload plus one tail byte) a DLC-legal
length.  The one added byte is the tail byte; the unit-test vectors in the
source (60 payload bytes with a 63-byte limit pad to 3, not 4) pin this down. -/
def get_required_padding (data_length : Nat) : Nat :=
  roundUpDataLength (data_length + 1) - (data_length + 1)

/-- Modelled from the spec: one shift step of the CRC-16/CCITT-FALSE engine
(polynomial 0x1021, width 16, no reflection). -/
def crcShift (c : Nat) : Nat :=
  if c &&& 0x8000 = 0 then (c <<< 1) % 0x10000 else ((c <<< 1) ^^^ 0x1021) % 0x10000

/-- Modelled from the spec: feeding one byte to the CRC-16/CCITT-FALSE engine:
the byte is xor-ed into the high half, then eight shift steps are applied. -/
def crcAddByte (crc b : Nat) : Nat :=
  crcShift (crcShift (crcShift (crcShift (crcShift (crcShift (crcShift (crcShift
    ((crc ^^^ (b <<< 8)) % 0x10000))))))))

/-- Modelled from the spec: the CRC-16/CCITT-FALSE checksum of a byte list,
initial value 0xFFFF (source collaborator: pyuavcan.util.hash.CRC16CCITT). -/
def CRC16CCITT (bs : List Nat) : Nat := bs.foldl crcAddByte 0xFFFF

/-- Modelled from the spec: the final two-byte big-endian digest of the CRC
engine, high byte first (source line 56: crc.value >> 8, crc.value & 0xFF). -/
def crcDigest (bs : List Nat) : List Nat :=
  [CRC16CCITT bs >>> 8, CRC16CCITT bs &&& 0xFF]

/-- Fuel-indexed chunking helper for the refragmenter: cuts the list into
pieces of mp + 1 bytes, the final piece possibly shorter, never empty. -/
def chunksFuel (mp : Nat) : Nat → List Nat → List (List Nat)
  | 0, _ => []
  | _ + 1, [] => []
  | fuel + 1, b :: bs => List.take (mp + 1) (b :: bs) :: chunksFuel mp fuel (List.drop (mp + 1) (b :: bs))

/-- Modelled from the spec: pyuavcan.util.refragment.  Re-chunks a byte
stream into pieces of exactly the configured size, the last piece holding the
remainder and possibly shorter; an exact multiple yields a full final piece
and never a spurious empty tail, so an empty stream yields no pieces. -/
def refragment (bs : List Nat) (max_output_fragment_size : Nat) : List (List Nat) :=
  if max_output_fragment_size = 0 then [] else chunksFuel (max_output_fragment_size - 1) bs.length bs

/-- The frame type produced by the serializer (source collaborator
_frame.UAVCANFrame; field names follow the source keyword arguments). -/
structure UAVCANFrame where
  identifier : Nat
  padded_payload : List Nat
  transfer_id : Nat
  start_of_transfer : Bool
  end_of_transfer : Bool
  toggle_bit : Bool
  loopback : Bool
deriving DecidableEq, Repr

/-- Modelled from the spec: compiling a frame to its on-wire data bytes, the
padded payload followed by the tail byte packing bit7 = SOT, bit6 = EOT,
bit5 = toggle, bits 4..0 = transfer id truncated modulo 32. -/
def UAVCANFrame.compile (f : UAVCANFrame) : List Nat :=
  f.padded_payload ++
    [(if f.start_of_transfer then 128 else 0) |||
     (if f.end_of_transfer then 64 else 0) |||
     (if f.toggle_bit then 32 else 0) |||
     (f.transfer_id % 32)]

/-- The expected-frame builder of the source unit test (lines 77 to 98): the
tail byte starts as the given transfer id and the three flag bits are or-ed
in; the data bytes are returned with the tail byte appended. -/
def mkf (data : List Nat) (transfer_id : Nat)
    (start_of_transfer end_of_transfer toggle_bit : Bool) : List Nat :=
  let tail := transfer_id
  let tail := if start_of_transfer then tail ||| (1 <<< 7) else tail
  let tail := if end_of_transfer then tail ||| (1 <<< 6) else tail
  let tail := if toggle_bit then tail ||| (1 <<< 5) else tail
  data ++ [tail]

/-- The ways serialize_transfer can raise (ValueError on an invalid maximum,
ValueError from unpacking the single-frame refragmenter output, and the
assert in the single-frame path). -/
inductive PyError where
  | invalidMaxPayload : PyError
  | unpackMismatch : PyError
  | assertionFailed : PyError
deriving DecidableEq, Repr

/-- Total payload length: source line 24, sum of the fragment lengths. -/
def payloadLength (fragmented_payload : List (List Nat)) : Nat :=
  (fragmented_payload.map List.length).sum

/-- One frame of the multi-frame branch: source lines 61 to 68, chunk at a
given enumeration index, SOT iff index zero, EOT iff last, toggle iff the
index is even. -/
def mkFrameAt (compiled_identifier transfer_id : Nat) (loopback : Bool)
    (total : Nat) (p : Nat × List Nat) : UAVCANFrame :=
  { identifier := compiled_identifier
    padded_payload := p.2
    transfer_id := transfer_id
    start_of_transfer := p.1 == 0
    end_of_transfer := p.1 + 1 == total
    toggle_bit := p.1 % 2 == 0
    loopback := loopback }

/-- The padding of the multi-frame branch (source lines 41 to 47): none when
the remainder of the payload length modulo the frame capacity plus the CRC
already reaches the capacity, otherwise enough fill bytes to make the final
data-bearing frame DLC-legal. -/
def multiPadding (fragmented_payload : List (List Nat)) (max_frame_payload_bytes : Nat) : List Nat :=
  if max_frame_payload_bytes ≤
      payloadLength fragmented_payload % max_frame_payload_bytes + TRANSFER_CRC_LENGTH_BYTES then
    []
  else
    List.replicate
      (get_required_padding
        (payloadLength fragmented_payload % max_frame_payload_bytes + TRANSFER_CRC_LENGTH_BYTES))
      PADDING_BYTE

/-- The byte stream of the multi-frame branch before the CRC trailer: all
payload fragments followed by the padding (the CRC protects exactly this). -/
def multiBase (fragmented_payload : List (List Nat)) (max_frame_payload_bytes : Nat) : List Nat :=
  fragmented_payload.flatten ++ multiPadding fragmented_payload max_frame_payload_bytes

/-- The multi-frame branch of serialize_transfer (source lines 40 to 68):
padding is computed from the payload length modulo the frame capacity, the
CRC is taken over the fragments followed by the padding, the trailing bytes
are the padding plus the big-endian CRC, and the refragmented stream is
emitted with SOT/EOT/toggle derived from the chunk index. -/
def multiFrames (compiled_identifier transfer_id : Nat)
    (fragmented_payload : List (List Nat)) (max_frame_payload_bytes : Nat)
    (loopback : Bool) : List UAVCANFrame :=
  let padding := multiPadding fragmented_payload max_frame_payload_bytes
  let trailing_bytes := padding ++ crcDigest (fragmented_payload.flatten ++ padding)
  let chunkList := refragment (fragmented_payload.flatten ++ trailing_bytes) max_frame_payload_bytes
  chunkList.enum.map (mkFrameAt compiled_identifier transfer_id loopback chunkList.length)

/-- serialize_transfer, translated from source lines 16 to 68.  The Python
generator is modelled as the full list of frames it yields, or the exception
it raises.  The single-frame branch mirrors lines 26 to 39 including the
destructuring bind over the refragmented stream and the assert; the
multi-frame branch is multiFrames. -/
def serialize_transfer (compiled_identifier transfer_id : Nat)
    (fragmented_payload : List (List Nat)) (max_frame_payload_bytes : Nat)
    (loopback : Bool) : Except PyError (List UAVCANFrame) :=
  if max_frame_payload_bytes < 1 then
    Except.error PyError.invalidMaxPayload
  else
    let payload_length := payloadLength fragmented_payload
    if payload_length ≤ max_frame_payload_bytes then
      let padding_length := get_required_padding payload_length
      match refragment (fragmented_payload.flatten ++ List.replicate padding_length PADDING_BYTE)
          max_frame_payload_bytes with
      | [payload] =>
        if payload.length ≤ max_frame_payload_bytes ∧ payload_length ≤ payload.length then
          Except.ok [{ identifier := compiled_identifier
                       padded_payload := payload
                       transfer_id := transfer_id
                       start_of_transfer := true
                       end_of_transfer := true
                       toggle_bit := true
                       loopback := loopback }]
        else
          Except.error PyError.assertionFailed
      | _ => Except.error PyError.unpackMismatch
    else
      Except.ok (multiFrames compiled_identifier transfer_id fragmented_payload
        max_frame_payload_bytes loopback)

/-- Modelled from the spec (section 4.4): the per-session reception state of
the reassembler while a transfer is being accumulated. -/
structure ReceptionState where
  active_transfer_id : Nat
  accumulated_payload : List Nat
  last_toggle : Bool
deriving DecidableEq, Repr

/-- Modelled from the spec (section 4.4): processing one incoming frame.
Returns the next state and an optional delivered transfer payload.  An SOT
frame begins a new reception, superseding any prior one, and delivers
immediately when it is also EOT (no CRC for single-frame transfers).  A
continuation frame is discarded when no reception is active, on a transfer-id
mismatch, or when its toggle repeats the recorded one; otherwise its payload
is appended, and on EOT the final two bytes are split off and checked as the
big-endian transfer CRC of the rest, which is delivered on a match. -/
def feedFrame (st : Option ReceptionState) (f : UAVCANFrame) :
    Option ReceptionState × Option (List Nat) :=
  if f.start_of_transfer then
    if f.end_of_transfer then
      (none, some f.padded_payload)
    else
      (some { active_transfer_id := f.transfer_id
              accumulated_payload := f.padded_payload
              last_toggle := f.toggle_bit }, none)
  else
    match st with
    | none => (none, none)
    | some rs =>
      if f.transfer_id ≠ rs.active_transfer_id then (none, none)
      else if f.toggle_bit = rs.last_toggle then (none, none)
      else
        let buf := rs.accumulated_payload ++ f.padded_payload
        if f.end_of_transfer then
          let body := buf.take (buf.length - TRANSFER_CRC_LENGTH_BYTES)
          let rx := buf.drop (buf.length - TRANSFER_CRC_LENGTH_BYTES)
          if rx = crcDigest body then (none, some body) else (none, none)
        else
          (some { active_transfer_id := rs.active_transfer_id
                  accumulated_payload := buf
                  last_toggle := f.toggle_bit }, none)

/-- One step of driving the reassembler: thread the state and append any
delivered payload. -/
def feedStep (acc : Option ReceptionState × List (List Nat)) (f : UAVCANFrame) :
    Option ReceptionState × List (List Nat) :=
  ((feedFrame acc.1 f).1, acc.2 ++ (feedFrame acc.1 f).2.toList)

/-- Feeding a frame list, in order, into a fresh reassembler session. -/
def feedAll (fs : List UAVCANFrame) : Option ReceptionState × List (List Nat) :=
  fs.foldl feedStep (none, [])

/-- The payloads delivered by the reassembler over a frame list. -/
def reassembleDeliveries (fs : List UAVCANFrame) : List (List Nat) :=
  (feedAll fs).2

/-- The end-of-transfer action of the reassembler on an accumulated buffer:
split off the trailing CRC, verify, deliver the body on a match. -/
def checkDeliver (buf : List Nat) : List (List Nat) :=
  if buf.drop (buf.length - TRANSFER_CRC_LENGTH_BYTES)
      = crcDigest (buf.take (buf.length - TRANSFER_CRC_LENGTH_BYTES)) then
    [buf.take (buf.length - TRANSFER_CRC_LENGTH_BYTES)]
  else
    []

/-! ## Arithmetic facts about the modelled collaborators -/

theorem crcShift_lt (c : Nat) : crcShift c < 0x10000 := by
  unfold crcShift
  split <;> exact Nat.mod_lt _ (by norm_num)

theorem crcAddByte_lt (crc b : Nat) : crcAddByte crc b < 0x10000 := by
  unfold crcAddByte
  exact crcShift_lt _

theorem crcFoldl_lt (bs : List Nat) : ∀ c : Nat, c < 0x10000 → bs.foldl crcAddByte c < 0x10000 := by
  induction bs with
  | nil => intro c hc; simpa using hc
  | cons b bs ih => intro c _; exact ih _ (crcAddByte_lt c b)

theorem CRC16CCITT_lt (bs : List Nat) : CRC16CCITT bs < 0x10000 :=
  crcFoldl_lt bs 0xFFFF (by norm_num)

theorem crcDigest_eq (bs : List Nat) :
    crcDigest bs = [CRC16CCITT bs / 256, CRC16CCITT bs % 256] := by
  unfold crcDigest
  rw [Nat.shiftRight_eq_div_pow, Nat.and_pow_two_sub_one_eq_mod (CRC16CCITT bs) 8]

theorem crcDigest_length (bs : List Nat) : (crcDigest bs).length = 2 := rfl

theorem roundUp_ge (n : Nat) : n ≤ roundUpDataLength n := by
  unfold roundUpDataLength
  cases h : List.head? (dlcLengths.filter (fun l => n ≤ l)) with
  | none => simp
  | some h0 =>
    have hmem : h0 ∈ dlcLengths.filter (fun l => n ≤ l) :=
      List.mem_of_mem_head? (by rw [h]; rfl)
    have h2 := (List.mem_filter.mp hmem).2
    simpa using of_decide_eq_true h2

theorem roundUp_le_of_mem {n x : Nat} (hx : x ∈ dlcLengths) (hnx : n ≤ x) :
    roundUpDataLength n ≤ x := by
  have hxf : x ∈ dlcLengths.filter (fun l => n ≤ l) :=
    List.mem_filter.mpr ⟨hx, decide_eq_true hnx⟩
  have hsorted : List.Sorted (· ≤ ·) (dlcLengths.filter (fun l => n ≤ l)) :=
    List.Pairwise.filter _ (by decide)
  unfold roundUpDataLength
  cases hf : dlcLengths.filter (fun l => n ≤ l) with
  | nil => rw [hf] at hxf; simp at hxf
  | cons h0 t =>
    rw [hf] at hxf hsorted
    rcases List.mem_cons.mp hxf with hx0 | hmem
    · simp [hx0]
    · simpa using le_of_eq_of_le rfl (List.rel_of_sorted_cons hsorted x hmem)

theorem roundUp_mem_of_mem {n x : Nat} (hx : x ∈ dlcLengths) (hnx : n ≤ x) :
    roundUpDataLength n ∈ dlcLengths := by
  have hxf : x ∈ dlcLengths.filter (fun l => n ≤ l) :=
    List.mem_filter.mpr ⟨hx, decide_eq_true hnx⟩
  unfold roundUpDataLength
  cases hf : dlcLengths.filter (fun l => n ≤ l) with
  | nil => rw [hf] at hxf; simp at hxf
  | cons h0 t =>
    have hmem : h0 ∈ dlcLengths.filter (fun l => n ≤ l) :=
      List.mem_of_mem_head? (by rw [hf]; rfl)
    simpa using (List.mem_filter.mp hmem).1

/-! ## Facts about the refragmenter -/

theorem chunksFuel_nil (mp fuel : Nat) : chunksFuel mp fuel [] = [] := by
  cases fuel <;> rfl

theorem flatten_chunksFuel (mp : Nat) :
    ∀ (fuel : Nat) (bs : List Nat), bs.length ≤ fuel → (chunksFuel mp fuel bs).flatten = bs := by
  intro fuel
  induction fuel with
  | zero =>
    intro bs h
    have : bs = [] := List.eq_nil_of_length_eq_zero (Nat.le_zero.mp h)
    subst this; rfl
  | succ fuel ih =>
    intro bs h
    cases bs with
    | nil => rfl
    | cons b t =>
      have hrec : (List.drop (mp + 1) (b :: t)).length ≤ fuel := by
        simp only [List.length_drop, List.length_cons]
        simp only [List.length_cons] at h
        omega
      simp only [chunksFuel, List.flatten_cons, ih _ hrec, List.take_append_drop]

theorem refragment_flatten (bs : List Nat) (m : Nat) (hm : 1 ≤ m) :
    (refragment bs m).flatten = bs := by
  unfold refragment
  rw [if_neg (by omega)]
  exact flatten_chunksFuel _ _ _ le_rfl

theorem refragment_single (bs : List Nat) (m : Nat) (hne : bs ≠ []) (hle : bs.length ≤ m) :
    refragment bs m = [bs] := by
  unfold refragment
  cases bs with
  | nil => exact absurd rfl hne
  | cons b t =>
    have hm : ¬ (m = 0) := by simp only [List.length_cons] at hle; omega
    rw [if_neg hm]
    simp only [List.length_cons, chunksFuel]
    have h1 : m - 1 + 1 = m := by omega
    rw [h1, List.take_of_length_le (by simpa using hle), List.drop_eq_nil_of_le (by simpa using hle),
      chunksFuel_nil]

theorem chunksFuel_ne_nil (mp fuel : Nat) (b : Nat) (t : List Nat)
    (h : (b :: t).length ≤ fuel) : chunksFuel mp fuel (b :: t) ≠ [] := by
  cases fuel with
  | zero => simp at h
  | succ fuel => simp [chunksFuel]

theorem refragment_two_chunks (bs : List Nat) (m : Nat) (hm : 1 ≤ m) (hlt : m < bs.length) :
    ∃ c cs, refragment bs m = c :: cs ∧ cs ≠ [] := by
  unfold refragment
  rw [if_neg (by omega)]
  cases bs with
  | nil => simp at hlt
  | cons b t =>
    have hlen : (b :: t).length = t.length + 1 := rfl
    simp only [hlen, chunksFuel]
    have h1 : m - 1 + 1 = m := by omega
    rw [h1]
    refine ⟨_, _, rfl, ?_⟩
    have hdlen : (List.drop m (b :: t)).length = t.length + 1 - m := by
      simp [List.length_drop]
    cases hd : List.drop m (b :: t) with
    | nil =>
      rw [hd] at hdlen
      simp only [List.length_nil] at hdlen
      simp only [hlen] at hlt
      omega
    | cons d ds =>
      rw [hd] at hdlen
      apply chunksFuel_ne_nil
      simp only [hlen] at hlt
      omega

/-! ## Unfolding lemmas for the serializer -/

theorem serialize_eq_multi (cid tid : Nat) (fp : List (List Nat)) (max : Nat) (lb : Bool)
    (hm : 1 ≤ max) (hlen : max < payloadLength fp) :
    serialize_transfer cid tid fp max lb = Except.ok (multiFrames cid tid fp max lb) := by
  simp only [serialize_transfer]
  rw [if_neg (by omega), if_neg (by omega)]

theorem serialize_single_inv (cid tid : Nat) (fp : List (List Nat)) (max : Nat) (lb : Bool)
    (frames : List UAVCANFrame)
    (hm : 1 ≤ max) (hle : payloadLength fp ≤ max)
    (h : serialize_transfer cid tid fp max lb = Except.ok frames) :
    frames = [{ identifier := cid
                padded_payload := fp.flatten ++
                  List.replicate (get_required_padding (payloadLength fp)) PADDING_BYTE
                transfer_id := tid
                start_of_transfer := true
                end_of_transfer := true
                toggle_bit := true
                loopback := lb }] := by
  simp only [serialize_transfer] at h
  rw [if_neg (by omega), if_pos hle] at h
  split at h
  next payload heq =>
    have hp : payload = fp.flatten ++
        List.replicate (get_required_padding (payloadLength fp)) PADDING_BYTE := by
      have hf := refragment_flatten
        (fp.flatten ++ List.replicate (get_required_padding (payloadLength fp)) PADDING_BYTE)
        max hm
      rw [heq] at hf
      simpa using hf
    split at h
    · injection h with h2
      rw [← h2, hp]
    · exact absurd h (by simp)
  next => exact absurd h (by simp)

theorem single_frame_ok (cid tid : Nat) (fp : List (List Nat)) (max : Nat) (lb : Bool)
    (h1 : 1 ≤ payloadLength fp) (h2 : payloadLength fp ≤ max) (h3 : max + 1 ∈ dlcLengths) :
    serialize_transfer cid tid fp max lb =
      Except.ok [{ identifier := cid
                   padded_payload := fp.flatten ++
                     List.replicate (get_required_padding (payloadLength fp)) PADDING_BYTE
                   transfer_id := tid
                   start_of_transfer := true
                   end_of_transfer := true
                   toggle_bit := true
                   loopback := lb }]
    ∧ payloadLength fp + get_required_padding (payloadLength fp) ≤ max := by
  have hstream : (fp.flatten ++
      List.replicate (get_required_padding (payloadLength fp)) PADDING_BYTE).length
      = payloadLength fp + get_required_padding (payloadLength fp) := by
    simp [List.length_flatten, payloadLength]
  have hge : payloadLength fp + 1 ≤ roundUpDataLength (payloadLength fp + 1) :=
    roundUp_ge _
  have hle : roundUpDataLength (payloadLength fp + 1) ≤ max + 1 :=
    roundUp_le_of_mem h3 (by omega)
  have hpad : get_required_padding (payloadLength fp) =
      roundUpDataLength (payloadLength fp + 1) - (payloadLength fp + 1) := rfl
  have hlen_le : payloadLength fp + get_required_padding (payloadLength fp) ≤ max := by
    rw [hpad]; omega
  have hne : fp.flatten ++
      List.replicate (get_required_padding (payloadLength fp)) PADDING_BYTE ≠ [] := by
    apply List.ne_nil_of_length_pos
    rw [hstream]; omega
  have hsingle := refragment_single _ max hne (by rw [hstream]; exact hlen_le)
  constructor
  · simp only [serialize_transfer]
    rw [if_neg (by omega), if_pos h2, hsingle]
    dsimp only
    rw [if_pos ⟨by rw [hstream]; exact hlen_le, by rw [hstream]; omega⟩]
  · exact hlen_le

/-! ## The reassembler inverts the serializer -/

theorem toggleAlt (j : Nat) (hj : 1 ≤ j) :
    ((j % 2 == 0) : Bool) ≠ (((j - 1) % 2 == 0) : Bool) := by
  rcases Nat.mod_two_eq_zero_or_one j with h | h
  · have h' : (j - 1) % 2 = 1 := by omega
    rw [h, h']
    decide
  · have h' : (j - 1) % 2 = 0 := by omega
    rw [h, h']
    decide

theorem feedChain (cid tid : Nat) (lb : Bool) :
    ∀ (cs : List (List Nat)) (j : Nat) (acc : List Nat) (deliv : List (List Nat)) (N : Nat),
      cs ≠ [] → 1 ≤ j → N = j + cs.length →
      List.foldl feedStep
        (some { active_transfer_id := tid, accumulated_payload := acc,
                last_toggle := ((j - 1) % 2 == 0) }, deliv)
        ((List.enumFrom j cs).map (mkFrameAt cid tid lb N))
      = (none, deliv ++ checkDeliver (acc ++ cs.flatten)) := by
  intro cs
  induction cs with
  | nil => intro j acc deliv N hne _ _; exact absurd rfl hne
  | cons c cs' ih =>
    intro j acc deliv N _ hj hN
    cases cs' with
    | nil =>
      simp only [List.enumFrom, List.map, List.foldl]
      simp only [feedStep, feedFrame, mkFrameAt]
      rw [if_neg (by simp [beq_eq_false_iff_ne.mpr (show j ≠ 0 by omega)])]
      rw [if_neg (show ¬ (tid ≠ tid) from fun hc => hc rfl)]
      rw [if_neg (toggleAlt j hj)]
      have heot : (j + 1 == N) = true := by
        simp only [List.length_cons, List.length_nil] at hN
        exact beq_iff_eq.mpr (by omega)
      rw [if_pos heot]
      simp only [checkDeliver, List.flatten_cons, List.flatten_nil, List.append_nil]
      split <;> simp
    | cons c' cs'' =>
      simp only [List.enumFrom, List.map, List.foldl]
      have hstep : feedStep
          (some { active_transfer_id := tid, accumulated_payload := acc,
                  last_toggle := ((j - 1) % 2 == 0) }, deliv)
          (mkFrameAt cid tid lb N (j, c))
          = (some { active_transfer_id := tid, accumulated_payload := acc ++ c,
                    last_toggle := (j % 2 == 0) }, deliv) := by
        simp only [feedStep, feedFrame, mkFrameAt]
        rw [if_neg (by simp [beq_eq_false_iff_ne.mpr (show j ≠ 0 by omega)])]
        rw [if_neg (show ¬ (tid ≠ tid) from fun hc => hc rfl)]
        rw [if_neg (toggleAlt j hj)]
        have heot : (j + 1 == N) = false := by
          simp only [List.length_cons] at hN
          exact beq_eq_false_iff_ne.mpr (by omega)
        rw [heot]
        simp
      rw [hstep]
      have hih := ih (j + 1) (acc ++ c) deliv N (by simp) (by omega)
        (by simp only [List.length_cons] at hN ⊢; omega)
      simp only [Nat.add_sub_cancel, List.enumFrom, List.map, List.foldl] at hih
      rw [hih]
      simp [List.flatten_cons, List.append_assoc]

theorem multiPadding_replicate (fp : List (List Nat)) (max : Nat) :
    ∃ k, multiPadding fp max = List.replicate k PADDING_BYTE := by
  unfold multiPadding
  split
  · exact ⟨0, rfl⟩
  · exact ⟨_, rfl⟩

theorem multiBase_length (fp : List (List Nat)) (max : Nat) :
    payloadLength fp ≤ (multiBase fp max).length := by
  unfold multiBase
  simp [List.length_flatten, payloadLength]

theorem multiStream_assoc (fp : List (List Nat)) (max : Nat) :
    fp.flatten ++ (multiPadding fp max ++ crcDigest (fp.flatten ++ multiPadding fp max))
      = multiBase fp max ++ crcDigest (multiBase fp max) := by
  simp [multiBase, List.append_assoc]

theorem checkDeliver_append_digest (base : List Nat) :
    checkDeliver (base ++ crcDigest base) = [base] := by
  unfold checkDeliver
  have hlen : (base ++ crcDigest base).length - TRANSFER_CRC_LENGTH_BYTES = base.length := by
    simp [crcDigest_length, TRANSFER_CRC_LENGTH_BYTES]
  rw [hlen, List.take_left, List.drop_left, if_pos rfl]

theorem multiFrames_payload_flatten (cid tid : Nat) (fp : List (List Nat)) (max : Nat)
    (lb : Bool) (hmax : 1 ≤ max) :
    ((multiFrames cid tid fp max lb).map UAVCANFrame.padded_payload).flatten
      = multiBase fp max ++ crcDigest (multiBase fp max) := by
  simp only [multiFrames]
  rw [multiStream_assoc, List.map_map]
  have hcomp : (UAVCANFrame.padded_payload ∘
      mkFrameAt cid tid lb (refragment (multiBase fp max ++ crcDigest (multiBase fp max)) max).length)
      = Prod.snd := rfl
  rw [hcomp, List.enum_map_snd]
  exact refragment_flatten _ _ hmax

theorem reassembleDeliveries_multiFrames (cid tid : Nat) (fp : List (List Nat)) (max : Nat)
    (lb : Bool) (hmax : 1 ≤ max) (hlen : max < payloadLength fp) :
    reassembleDeliveries (multiFrames cid tid fp max lb) = [multiBase fp max] := by
  have hstream_len : max < (multiBase fp max ++ crcDigest (multiBase fp max)).length := by
    have hb := multiBase_length fp max
    simp only [List.length_append, crcDigest_length]
    omega
  obtain ⟨c, cs, hchunk, hcs⟩ := refragment_two_chunks _ max hmax hstream_len
  have hflat : c ++ cs.flatten = multiBase fp max ++ crcDigest (multiBase fp max) := by
    have hf := refragment_flatten (multiBase fp max ++ crcDigest (multiBase fp max)) max hmax
    rw [hchunk] at hf
    simpa [List.flatten_cons] using hf
  simp only [reassembleDeliveries, feedAll, multiFrames]
  rw [multiStream_assoc, hchunk]
  simp only [List.enum, List.enumFrom, List.map, List.foldl]
  have hN : (c :: cs).length = 1 + cs.length := by simp; omega
  have hstep : feedStep (none, []) (mkFrameAt cid tid lb (c :: cs).length (0, c))
      = (some { active_transfer_id := tid, accumulated_payload := c,
                last_toggle := (0 % 2 == 0) }, []) := by
    simp only [feedStep, feedFrame, mkFrameAt]
    rw [if_pos (by simp)]
    have heot : (0 + 1 == (c :: cs).length) = false := by
      apply beq_eq_false_iff_ne.mpr
      have : cs.length ≠ 0 := fun hc => hcs (List.eq_nil_of_length_eq_zero hc)
      simp only [List.length_cons]
      omega
    rw [heot]
    simp
  rw [hstep]
  have hchain := feedChain cid tid lb cs 1 c [] (c :: cs).length hcs (by omega)
    (by simp only [List.length_cons]; omega)
  have htog : (((1 : Nat) - 1) % 2 == 0) = ((0 : Nat) % 2 == 0) := rfl
  rw [htog] at hchain
  rw [hchain, hflat]
  simp [checkDeliver_append_digest]

theorem serialize_frames_tid (cid tid : Nat) (fp : List (List Nat)) (max : Nat) (lb : Bool)
    (frames : List UAVCANFrame) (f : UAVCANFrame)
    (h : serialize_transfer cid tid fp max lb = Except.ok frames) (hf : f ∈ frames) :
    f.transfer_id = tid := by
  by_cases hm : max < 1
  · rw [serialize_transfer, if_pos hm] at h
    exact absurd h (by simp)
  · by_cases hle : payloadLength fp ≤ max
    · have hframes := serialize_single_inv cid tid fp max lb frames (by omega) hle h
      subst hframes
      rw [List.mem_singleton] at hf
      subst hf
      rfl
    · have hmulti := serialize_eq_multi cid tid fp max lb (by omega) (by omega)
      rw [hmulti] at h
      injection h with h2
      subst h2
      simp only [multiFrames] at hf
      obtain ⟨p, _, rfl⟩ := List.mem_map.mp hf
      rfl

/-! ## Claim theorems -/

/-- Claim C1: for every transfer (payload bytes split into arbitrary fragment
boundaries) and every accepted frame capacity, feeding the frame sequence
produced by serialize_transfer, in order, into the section 4.4 reassembler
delivers a payload whose non-padding part equals the concatenation of the
input fragments exactly, followed only by 0x55 padding bytes. -/
theorem claim_C1_roundtrip (cid tid : Nat) (fp : List (List Nat)) (max : Nat) (lb : Bool)
    (frames : List UAVCANFrame)
    (h : serialize_transfer cid tid fp max lb = Except.ok frames) :
    ∃ k, reassembleDeliveries frames = [fp.flatten ++ List.replicate k PADDING_BYTE] := by
  by_cases hm : max < 1
  · rw [serialize_transfer, if_pos hm] at h
    exact absurd h (by simp)
  · by_cases hle : payloadLength fp ≤ max
    · have hframes := serialize_single_inv cid tid fp max lb frames (by omega) hle h
      subst hframes
      refine ⟨get_required_padding (payloadLength fp), ?_⟩
      simp [reassembleDeliveries, feedAll, feedStep, feedFrame]
    · have hmulti := serialize_eq_multi cid tid fp max lb (by omega) (by omega)
      rw [hmulti] at h
      injection h with h2
      subst h2
      obtain ⟨k, hk⟩ := multiPadding_replicate fp max
      refine ⟨k, ?_⟩
      rw [reassembleDeliveries_multiFrames cid tid fp max lb (by omega) (by omega)]
      simp only [multiBase, hk]

/-- Witness for claim C1 at a concrete transfer: the Hello payload split as
two fragments with a seven-byte frame capacity. -/
theorem claim_C1_roundtrip_witness :
    ∃ k, reassembleDeliveries
        [{ identifier := 0xbadc0fe, padded_payload := [72, 101, 108, 108, 111],
           transfer_id := 32, start_of_transfer := true, end_of_transfer := true,
           toggle_bit := true, loopback := false }]
      = [([[72, 101, 108, 108], [111]] : List (List Nat)).flatten ++
          List.replicate k PADDING_BYTE] :=
  claim_C1_roundtrip 0xbadc0fe 32 [[72, 101, 108, 108], [111]] 7 false _ rfl

/-- Counterexample for claim C2: for the empty payload (total length zero,
at most the frame capacity) the serializer does not emit exactly one frame;
it raises from the destructuring bind because the refragmenter yields no
chunk at all for an empty stream. -/
theorem claim_C2_counterexample :
    payloadLength ([] : List (List Nat)) ≤ 7
    ∧ serialize_transfer 0 0 ([] : List (List Nat)) 7 false
        = Except.error PyError.unpackMismatch :=
  ⟨by decide, rfl⟩

/-- Claim C2 as amended: for every fragmented payload whose total length is
at least one and at most the frame capacity, with the capacity plus the tail
byte DLC-legal, serialize_transfer emits exactly one frame with
SOT = EOT = toggle = true whose payload is exactly the fragments followed by
0x55 padding, with no CRC anywhere. -/
theorem claim_C2_amended (cid tid : Nat) (fp : List (List Nat)) (max : Nat) (lb : Bool)
    (h1 : 1 ≤ payloadLength fp) (h2 : payloadLength fp ≤ max) (h3 : max + 1 ∈ dlcLengths) :
    serialize_transfer cid tid fp max lb =
      Except.ok [{ identifier := cid
                   padded_payload := fp.flatten ++
                     List.replicate (get_required_padding (payloadLength fp)) PADDING_BYTE
                   transfer_id := tid
                   start_of_transfer := true
                   end_of_transfer := true
                   toggle_bit := true
                   loopback := lb }] :=
  (single_frame_ok cid tid fp max lb h1 h2 h3).1

/-- Witness for the amended claim C2 at the Hello transfer. -/
theorem claim_C2_amended_witness :
    serialize_transfer 0xbadc0fe 32 [[72, 101, 108, 108], [111]] 7 false =
      Except.ok [{ identifier := 0xbadc0fe
                   padded_payload := [72, 101, 108, 108, 111]
                   transfer_id := 32
                   start_of_transfer := true
                   end_of_transfer := true
                   toggle_bit := true
                   loopback := false }] :=
  claim_C2_amended 0xbadc0fe 32 [[72, 101, 108, 108], [111]] 7 false
    (by decide) (by decide) (by decide)

/-- Claim C3: in a multi-frame transfer the frame at index i has
start_of_transfer true exactly at index zero, end_of_transfer true exactly at
the last index, and toggle_bit true exactly at even indices. -/
theorem claim_C3_multiframe_flags (cid tid : Nat) (fp : List (List Nat)) (max : Nat)
    (lb : Bool) (frames : List UAVCANFrame) (i : Nat)
    (hlen : max < payloadLength fp)
    (h : serialize_transfer cid tid fp max lb = Except.ok frames)
    (hi : i < frames.length) :
    (frames[i].start_of_transfer = true ↔ i = 0)
    ∧ (frames[i].end_of_transfer = true ↔ i = frames.length - 1)
    ∧ (frames[i].toggle_bit = true ↔ i % 2 = 0) := by
  by_cases hm : max < 1
  · rw [serialize_transfer, if_pos hm] at h
    exact absurd h (by simp)
  · have hmulti := serialize_eq_multi cid tid fp max lb (by omega) hlen
    rw [hmulti] at h
    injection h with h2
    subst h2
    simp only [multiFrames, List.length_map, List.enum_length] at hi ⊢
    rw [List.getElem_map, List.getElem_enum]
    simp only [mkFrameAt, beq_iff_eq]
    refine ⟨trivial, ?_, trivial⟩
    omega

/-- Witness for claim C3 at the second frame of the known five-frame
transfer of payload bytes 0 to 29 with a seven-byte capacity. -/
theorem claim_C3_multiframe_flags_witness :
    (((multiFrames 0xbadc0fe 323219 [List.range 30] 7 false).get
        ⟨1, by decide⟩).start_of_transfer = true ↔ (1 : Nat) = 0)
    ∧ (((multiFrames 0xbadc0fe 323219 [List.range 30] 7 false).get
        ⟨1, by decide⟩).end_of_transfer = true ↔ (1 : Nat) =
          (multiFrames 0xbadc0fe 323219 [List.range 30] 7 false).length - 1)
    ∧ (((multiFrames 0xbadc0fe 323219 [List.range 30] 7 false).get
        ⟨1, by decide⟩).toggle_bit = true ↔ (1 : Nat) % 2 = 0) :=
  claim_C3_multiframe_flags 0xbadc0fe 323219 [List.range 30] 7 false
    (multiFrames 0xbadc0fe 323219 [List.range 30] 7 false) 1
    (by decide) rfl (by decide)

/-- Counterexample for claim C4: with payload bytes 0 to 29 and an
eleven-byte capacity the remainder is 8, the code inserts one 0x55 byte
(visible in the last frame before the two CRC bytes), and the resulting
data-bearing length 8 + 2 + 1 = 11 is not DLC-legal, so the padding does
not round the remainder plus CRC up to a DLC-legal length at most the
capacity as the claim states. -/
theorem claim_C4_counterexample :
    (serialize_transfer 123456 32323219 [List.range 30] 11 false).map
        (fun fs => fs.map (fun f => f.padded_payload))
      = Except.ok [[0, 1, 2, 3, 4, 5, 6, 7, 8, 9, 10],
                   [11, 12, 13, 14, 15, 16, 17, 18, 19, 20, 21],
                   [22, 23, 24, 25, 26, 27, 28, 29, 0x55, 0x38, 0xa6]]
    ∧ (30 % 11 + 2) + 1 ∉ dlcLengths :=
  ⟨rfl, by decide⟩

/-- Claim C4 as amended: in a multi-frame transfer with remainder
rem = total mod capacity, no padding is inserted when rem + 2 reaches the
capacity; otherwise the padding rounds rem + 2 plus the tail byte up to the
smallest DLC-legal length, which is at most capacity + 1 whenever
capacity + 1 is DLC-legal.  The emitted byte stream is the fragments, then
the padding, then the CRC digest. -/
theorem claim_C4_amended (cid tid : Nat) (fp : List (List Nat)) (max : Nat) (lb : Bool)
    (frames : List UAVCANFrame)
    (hlen : max < payloadLength fp) (hdlc : max + 1 ∈ dlcLengths)
    (h : serialize_transfer cid tid fp max lb = Except.ok frames) :
    (max ≤ payloadLength fp % max + 2 → multiPadding fp max = [])
    ∧ (payloadLength fp % max + 2 < max →
        multiPadding fp max =
          List.replicate (get_required_padding (payloadLength fp % max + 2)) PADDING_BYTE
        ∧ get_required_padding (payloadLength fp % max + 2)
            = roundUpDataLength (payloadLength fp % max + 3) - (payloadLength fp % max + 3)
        ∧ payloadLength fp % max + 3 ≤ roundUpDataLength (payloadLength fp % max + 3)
        ∧ roundUpDataLength (payloadLength fp % max + 3) ∈ dlcLengths
        ∧ roundUpDataLength (payloadLength fp % max + 3) ≤ max + 1)
    ∧ (frames.map UAVCANFrame.padded_payload).flatten
        = multiBase fp max ++ crcDigest (multiBase fp max) := by
  by_cases hm : max < 1
  · rw [serialize_transfer, if_pos hm] at h
    exact absurd h (by simp)
  refine ⟨?_, ?_, ?_⟩
  · intro h2
    unfold multiPadding
    rw [if_pos (by simpa [TRANSFER_CRC_LENGTH_BYTES] using h2)]
  · intro h2
    have harg : payloadLength fp % max + 2 + 1 = payloadLength fp % max + 3 := by omega
    have hge := roundUp_ge (payloadLength fp % max + 3)
    have hle3 : payloadLength fp % max + 3 ≤ max + 1 := by omega
    refine ⟨?_, ?_, hge, roundUp_mem_of_mem hdlc hle3, roundUp_le_of_mem hdlc hle3⟩
    · unfold multiPadding
      rw [if_neg (by simp only [TRANSFER_CRC_LENGTH_BYTES]; omega)]
      simp only [TRANSFER_CRC_LENGTH_BYTES]
    · unfold get_required_padding
      rw [harg]
  · have hmulti := serialize_eq_multi cid tid fp max lb (by omega) hlen
    rw [hmulti] at h
    injection h with h2
    subst h2
    exact multiFrames_payload_flatten cid tid fp max lb (by omega)

/-- Witness for the amended claim C4 at payload bytes 0 to 29 with an
eleven-byte capacity: the remainder is 8, one 0x55 pad byte is inserted, and
8 + 3 + 1 = 12 is the smallest DLC-legal length, at most 12. -/
theorem claim_C4_amended_witness :
    (11 ≤ payloadLength [List.range 30] % 11 + 2 → multiPadding [List.range 30] 11 = [])
    ∧ (payloadLength [List.range 30] % 11 + 2 < 11 →
        multiPadding [List.range 30] 11 =
          List.replicate (get_required_padding (payloadLength [List.range 30] % 11 + 2))
            PADDING_BYTE
        ∧ get_required_padding (payloadLength [List.range 30] % 11 + 2)
            = roundUpDataLength (payloadLength [List.range 30] % 11 + 3)
              - (payloadLength [List.range 30] % 11 + 3)
        ∧ payloadLength [List.range 30] % 11 + 3
            ≤ roundUpDataLength (payloadLength [List.range 30] % 11 + 3)
        ∧ roundUpDataLength (payloadLength [List.range 30] % 11 + 3) ∈ dlcLengths
        ∧ roundUpDataLength (payloadLength [List.range 30] % 11 + 3) ≤ 11 + 1)
    ∧ ((multiFrames 123456 32323219 [List.range 30] 11 false).map
        UAVCANFrame.padded_payload).flatten
        = multiBase [List.range 30] 11 ++ crcDigest (multiBase [List.range 30] 11) :=
  claim_C4_amended 123456 32323219 [List.range 30] 11 false
    (multiFrames 123456 32323219 [List.range 30] 11 false)
    (by decide) (by decide) rfl

/-- Claim C5: in a multi-frame transfer the emitted byte stream is the
fragments, then the padding, then the two CRC-16/CCITT-FALSE bytes of the
fragments-plus-padding, appended big-endian (the sixteen-bit value split as
value / 256 then value mod 256); a single-frame transfer carries no CRC,
its stream being exactly the fragments plus padding. -/
theorem claim_C5_crc_trailer (cid tid : Nat) (fp : List (List Nat)) (max : Nat) (lb : Bool)
    (frames : List UAVCANFrame)
    (h : serialize_transfer cid tid fp max lb = Except.ok frames) :
    (max < payloadLength fp →
      ∃ p, (frames.map UAVCANFrame.padded_payload).flatten
          = (fp.flatten ++ List.replicate p PADDING_BYTE)
            ++ [CRC16CCITT (fp.flatten ++ List.replicate p PADDING_BYTE) / 256,
                CRC16CCITT (fp.flatten ++ List.replicate p PADDING_BYTE) % 256]
          ∧ CRC16CCITT (fp.flatten ++ List.replicate p PADDING_BYTE) < 0x10000)
    ∧ (payloadLength fp ≤ max →
      ∃ p, (frames.map UAVCANFrame.padded_payload).flatten
          = fp.flatten ++ List.replicate p PADDING_BYTE) := by
  by_cases hm : max < 1
  · rw [serialize_transfer, if_pos hm] at h
    exact absurd h (by simp)
  constructor
  · intro hlen
    have hmulti := serialize_eq_multi cid tid fp max lb (by omega) hlen
    rw [hmulti] at h
    injection h with h2
    subst h2
    obtain ⟨p, hp⟩ := multiPadding_replicate fp max
    refine ⟨p, ?_, CRC16CCITT_lt _⟩
    rw [multiFrames_payload_flatten cid tid fp max lb (by omega)]
    simp only [multiBase, hp, crcDigest_eq]
  · intro hle
    have hframes := serialize_single_inv cid tid fp max lb frames (by omega) hle h
    subst hframes
    exact ⟨get_required_padding (payloadLength fp), by simp⟩

/-- Witness for claim C5 at payload bytes 0 to 29 with a seven-byte
capacity (multi-frame, no padding needed). -/
theorem claim_C5_crc_trailer_witness :
    ∃ p, ((multiFrames 0xbadc0fe 323219 [List.range 30] 7 false).map
          UAVCANFrame.padded_payload).flatten
        = (([List.range 30] : List (List Nat)).flatten ++ List.replicate p PADDING_BYTE)
          ++ [CRC16CCITT (([List.range 30] : List (List Nat)).flatten ++
                List.replicate p PADDING_BYTE) / 256,
              CRC16CCITT (([List.range 30] : List (List Nat)).flatten ++
                List.replicate p PADDING_BYTE) % 256]
        ∧ CRC16CCITT (([List.range 30] : List (List Nat)).flatten ++
            List.replicate p PADDING_BYTE) < 0x10000 :=
  (claim_C5_crc_trailer 0xbadc0fe 323219 [List.range 30] 7 false
    (multiFrames 0xbadc0fe 323219 [List.range 30] 7 false) rfl).1 (by decide)

/-- Counterexample for claim C6: a frame capacity of 8 is at least 1, yet
the serializer raises on an eight-byte payload, because padding the payload
plus tail byte to the next DLC-legal length overshoots the capacity and the
refragmenter then yields two chunks where the single-frame path destructures
exactly one. -/
theorem claim_C6_counterexample :
    (1 : Nat) ≤ 8
    ∧ serialize_transfer 0 0 [List.range 8] 8 false = Except.error PyError.unpackMismatch :=
  ⟨by decide, rfl⟩

/-- Claim C6 as amended: an invalid capacity (less than one) is rejected
with an error and no frames; and with a capacity of at least one whose
successor is DLC-legal, the serializer never raises on any payload of
total length at least one. -/
theorem claim_C6_amended (cid tid : Nat) (fp : List (List Nat)) (max : Nat) (lb : Bool) :
    (max < 1 → serialize_transfer cid tid fp max lb = Except.error PyError.invalidMaxPayload)
    ∧ (1 ≤ max → max + 1 ∈ dlcLengths → 1 ≤ payloadLength fp →
        ∃ frames, serialize_transfer cid tid fp max lb = Except.ok frames) := by
  constructor
  · intro hm
    rw [serialize_transfer, if_pos hm]
  · intro hm hdlc hpl
    by_cases hle : payloadLength fp ≤ max
    · exact ⟨_, (single_frame_ok cid tid fp max lb hpl hle hdlc).1⟩
    · exact ⟨_, serialize_eq_multi cid tid fp max lb hm (by omega)⟩

/-- Witness for the amended claim C6: capacity zero is rejected, while the
same three-byte transfer with capacity seven serializes. -/
theorem claim_C6_amended_witness :
    serialize_transfer 5 6 [[1, 2, 3]] 0 false = Except.error PyError.invalidMaxPayload
    ∧ ∃ frames, serialize_transfer 5 6 [[1, 2, 3]] 7 false = Except.ok frames :=
  ⟨(claim_C6_amended 5 6 [[1, 2, 3]] 0 false).1 (by decide),
   (claim_C6_amended 5 6 [[1, 2, 3]] 7 false).2 (by decide) (by decide) (by decide)⟩

/-- Claim C7: for the payload bytes 0 to 29 as one fragment with a
seven-byte capacity, the CRC over payload plus padding (here empty) is
0x3554, and the last emitted frame ends, before the tail byte, with the
bytes 0x35 0x54. -/
theorem claim_C7_crc_value :
    CRC16CCITT (List.range 30 ++ multiPadding [List.range 30] 7) = 0x3554
    ∧ (serialize_transfer 0xbadc0fe 323219 [List.range 30] 7 false).map
        (fun fs => (fs.map (fun f => f.padded_payload)).getLast?)
      = Except.ok (some [0x1c, 0x1d, 0x35, 0x54]) :=
  ⟨rfl, rfl⟩

/-- Counterexample for claim C8: the Hello transfer (five payload bytes,
seven-byte capacity) is emitted as one frame whose data portion is exactly
the five Hello bytes with no padding at all, because five bytes plus the
tail byte already form the DLC-legal length six; the claim expects two 0x55
padding bytes. -/
theorem claim_C8_counterexample :
    (serialize_transfer 0xbadc0fe 32 [[72, 101, 108, 108], [111]] 7 false).map
        (fun fs => fs.map (fun f => f.padded_payload))
      = Except.ok [[72, 101, 108, 108, 111]]
    ∧ ([72, 101, 108, 108, 111] : List Nat)
        ≠ [72, 101, 108, 108, 111] ++ [PADDING_BYTE, PADDING_BYTE] :=
  ⟨rfl, by decide⟩

/-- Claim C8 as amended: the Hello transfer yields exactly one frame with
SOT = EOT = toggle = true and zero padding bytes; its compiled data equals
the source unit test expectation built by mkf with the truncated transfer
id 0, the tail byte being 0xE0. -/
theorem claim_C8_amended :
    serialize_transfer 0xbadc0fe 32 [[72, 101, 108, 108], [111]] 7 false =
      Except.ok [{ identifier := 0xbadc0fe
                   padded_payload := [72, 101, 108, 108, 111]
                   transfer_id := 32
                   start_of_transfer := true
                   end_of_transfer := true
                   toggle_bit := true
                   loopback := false }]
    ∧ (UAVCANFrame.mk 0xbadc0fe [72, 101, 108, 108, 111] 32 true true true false).compile
        = mkf [72, 101, 108, 108, 111] 0 true true true
    ∧ mkf [72, 101, 108, 108, 111] 0 true true true = [72, 101, 108, 108, 111, 0xE0] :=
  ⟨rfl, rfl, rfl⟩

/-- Claim C9: every frame emitted by serialize_transfer compiles to data
whose final byte is the tail byte SOT shifted to bit 7, or EOT at bit 6, or
toggle at bit 5, or the logical transfer id truncated modulo 32. -/
theorem claim_C9_tail_byte (cid tid : Nat) (fp : List (List Nat)) (max : Nat) (lb : Bool)
    (frames : List UAVCANFrame) (f : UAVCANFrame)
    (h : serialize_transfer cid tid fp max lb = Except.ok frames) (hf : f ∈ frames) :
    f.compile.getLast? =
      some ((if f.start_of_transfer then 1 <<< 7 else 0)
        ||| (if f.end_of_transfer then 1 <<< 6 else 0)
        ||| (if f.toggle_bit then 1 <<< 5 else 0)
        ||| (tid % 32)) := by
  have htid := serialize_frames_tid cid tid fp max lb frames f h hf
  rw [UAVCANFrame.compile, List.getLast?_concat, htid]
  have h7 : (1 <<< 7 : Nat) = 128 := rfl
  have h6 : (1 <<< 6 : Nat) = 64 := rfl
  have h5 : (1 <<< 5 : Nat) = 32 := rfl
  rw [h7, h6, h5]

/-- Witness for claim C9 at the Hello transfer, whose logical transfer id 32
encodes as 0 in the five low bits of the tail byte. -/
theorem claim_C9_tail_byte_witness :
    (UAVCANFrame.mk 0xbadc0fe [72, 101, 108, 108, 111] 32 true true true false).compile.getLast?
      = some ((if true then 1 <<< 7 else 0)
        ||| (if true then 1 <<< 6 else 0)
        ||| (if true then 1 <<< 5 else 0)
        ||| (32 % 32)) :=
  claim_C9_tail_byte 0xbadc0fe 32 [[72, 101, 108, 108], [111]] 7 false
    [UAVCANFrame.mk 0xbadc0fe [72, 101, 108, 108, 111] 32 true true true false]
    (UAVCANFrame.mk 0xbadc0fe [72, 101, 108, 108, 111] 32 true true true false)
    rfl (List.mem_singleton.mpr rfl)

/-- Counterexample for claim C10: a nine-byte payload with a capacity of
nine stays on the single-frame path, but padding nine bytes plus the tail
byte up to the DLC-legal length twelve makes the padded stream eleven bytes,
which no longer fits one frame: no frame satisfying the claimed length
bounds is emitted; the call raises instead. -/
theorem claim_C10_counterexample :
    payloadLength [List.range 9] ≤ 9
    ∧ serialize_transfer 0 0 [List.range 9] 9 false = Except.error PyError.unpackMismatch :=
  ⟨by decide, rfl⟩

/-- Claim C10 as amended: for every payload of total length between one and
the capacity, with capacity plus one DLC-legal, the single-frame path emits
one frame whose padded payload length is at least the total payload length
and at most the capacity, so the assert in the single-frame path holds. -/
theorem claim_C10_amended (cid tid : Nat) (fp : List (List Nat)) (max : Nat) (lb : Bool)
    (h1 : 1 ≤ payloadLength fp) (h2 : payloadLength fp ≤ max) (h3 : max + 1 ∈ dlcLengths) :
    ∃ f, serialize_transfer cid tid fp max lb = Except.ok [f]
      ∧ payloadLength fp ≤ f.padded_payload.length
      ∧ f.padded_payload.length ≤ max := by
  obtain ⟨hok, hbound⟩ := single_frame_ok cid tid fp max lb h1 h2 h3
  have hplen : (fp.flatten ++
      List.replicate (get_required_padding (payloadLength fp)) PADDING_BYTE).length
      = payloadLength fp + get_required_padding (payloadLength fp) := by
    simp [List.length_flatten, payloadLength]
  exact ⟨_, hok, by rw [hplen]; omega, by rw [hplen]; exact hbound⟩

/-- Witness for the amended claim C10 at the sixty-byte transfer with a
63-byte capacity from the source unit test (three 0x55 bytes of padding,
length 63). -/
theorem claim_C10_amended_witness :
    ∃ f, serialize_transfer 0xbadc0fe 51 [List.range 60] 63 true = Except.ok [f]
      ∧ payloadLength [List.range 60] ≤ f.padded_payload.length
      ∧ f.padded_payload.length ≤ 63 :=
  claim_C10_amended 0xbadc0fe 51 [List.range 60] 63 true
    (by decide) (by decide) (by decide)

/-! ## Grounding against the unit-test vectors of the source file -/

/-- Source test, lines 116 to 117: the Hello transfer compiles to the mkf
expectation with truncated transfer id 0 and flags all set. -/
theorem sourceTest_hello :
    (serialize_transfer 0xbadc0fe 32 [[72, 101, 108, 108], [111]] 7 false).map
        (fun fs => fs.map UAVCANFrame.compile)
      = Except.ok [mkf [72, 101, 108, 108, 111] 0 true true true] :=
  rfl

/-- Source test, lines 119 to 120: sixty payload bytes with a 63-byte
capacity yield a single frame padded with three 0x55 bytes, transfer id
32 + 19 truncating to 19. -/
theorem sourceTest_single63 :
    (serialize_transfer 0xbadc0fe (32 + 19) [List.range 60] 63 true).map
        (fun fs => fs.map UAVCANFrame.compile)
      = Except.ok [mkf (List.range 60 ++ [0x55, 0x55, 0x55]) 19 true true true] :=
  rfl

/-- Source test, lines 122 to 131: payload bytes 0 to 29 with a seven-byte
capacity yield five frames with alternating toggle and the CRC 0x3554 split
into the last frame. -/
theorem sourceTest_multi7 :
    (serialize_transfer 0xbadc0fe 323219 [List.range 30] 7 false).map
        (fun fs => fs.map UAVCANFrame.compile)
      = Except.ok
          [mkf [0x00, 0x01, 0x02, 0x03, 0x04, 0x05, 0x06] 19 true false true,
           mkf [0x07, 0x08, 0x09, 0x0a, 0x0b, 0x0c, 0x0d] 19 false false false,
           mkf [0x0e, 0x0f, 0x10, 0x11, 0x12, 0x13, 0x14] 19 false false true,
           mkf [0x15, 0x16, 0x17, 0x18, 0x19, 0x1a, 0x1b] 19 false false false,
           mkf [0x1c, 0x1d, 0x35, 0x54] 19 false true true] :=
  rfl

/-- Source test, lines 133 to 140: payload bytes 0 to 28 with a fifteen-byte
capacity: the CRC 0xC46F splits across the last two frames and no padding is
inserted. -/
theorem sourceTest_multi15 :
    (serialize_transfer 123456 32323219 [List.range 29] 15 true).map
        (fun fs => fs.map UAVCANFrame.compile)
      = Except.ok
          [mkf [0x00, 0x01, 0x02, 0x03, 0x04, 0x05, 0x06, 0x07, 0x08, 0x09,
                0x0a, 0x0b, 0x0c, 0x0d, 0x0e] 19 true false true,
           mkf [0x0f, 0x10, 0x11, 0x12, 0x13, 0x14, 0x15, 0x16, 0x17, 0x18,
                0x19, 0x1a, 0x1b, 0x1c, 0xc4] 19 false false false,
           mkf [0x6f] 19 false true true] :=
  rfl

/-- Source test, lines 142 to 149: payload bytes 0 to 29 with an eleven-byte
capacity: one 0x55 pad byte is inserted and the CRC over payload plus padding
is 0x38A6. -/
theorem sourceTest_multi11 :
    CRC16CCITT (List.range 30 ++ [0x55]) = 0x38A6
    ∧ (serialize_transfer 123456 32323219 [List.range 30] 11 false).map
        (fun fs => fs.map UAVCANFrame.compile)
      = Except.ok
          [mkf [0x00, 0x01, 0x02, 0x03, 0x04, 0x05, 0x06, 0x07, 0x08, 0x09, 0x0a]
            19 true false true,
           mkf [0x0b, 0x0c, 0x0d, 0x0e, 0x0f, 0x10, 0x11, 0x12, 0x13, 0x14, 0x15]
            19 false false false,
           mkf [0x16, 0x17, 0x18, 0x19, 0x1a, 0x1b, 0x1c, 0x1d, 0x55, 0x38, 0xa6]
            19 false true true] :=
  ⟨rfl, rfl⟩

